import Mathlib

/-!
Verification development for the 3d-arcade-online compositing pipeline.

The development shallowly embeds the parts of the source relevant to the
specification claims:

* the emulator video-source adapter (src/emulator/EmulatorBridge.js):
  placeholder-canvas policy, the EJS_onGameStart readiness protocol with its
  width threshold and mutation-observer resize wait, and the outputCanvas
  accessor;
* the frame scheduler (src/scene/SceneManager.js): start/stop lifecycle,
  the per-tick body (texture-source swap, dirty marking, elapsed-time uniform
  update), together with a model of the three.js Clock dependency it drives;
* the CRT display-filter fragment program (src/shaders/CRTShader.glsl):
  barrel distortion, chromatic sampling, scanlines, glow, brightness,
  flicker and vignette over real numbers.

Machine states are executable (Bool / Nat / rational clock) so concrete
traces evaluate by decide; the shader is embedded over the reals.
-/

namespace Arcade

/-! ### Video-source adapter: EmulatorBridge (src/emulator/EmulatorBridge.js) -/

/-- Canvas surfaces by reference identity: the synthetic placeholder created in
the EmulatorBridge constructor, and the live EJS emulator canvas. -/
inductive Surface where
  | placeholder
  | ejs
  deriving DecidableEq

/-- State of the EmulatorBridge during one ROM load. realW and realH are the
currently reported dimensions of the external EJS canvas; observing models an
attached MutationObserver on its width and height attributes; resolved models
the loadROM promise having resolved. -/
structure BridgeState where
  ejsBound : Bool
  isReady : Bool
  resolved : Bool
  observing : Bool
  realW : Nat
  realH : Nat
  deriving DecidableEq

/-- Bridge state right after the constructor and the start of loadROM: no EJS
canvas bound, not ready, promise pending; the external canvas currently
reports dimensions w by h. -/
def BridgeState.init (w h : Nat) : BridgeState :=
  { ejsBound := false, isReady := false, resolved := false, observing := false,
    realW := w, realH := h }

/-- The markReady closure inside EJS_onGameStart: store the EJS canvas in the
private field, set the ready flag, resolve the loadROM promise. -/
def BridgeState.markReady (b : BridgeState) : BridgeState :=
  { b with ejsBound := true, isReady := true, resolved := true }

/-- External events acting on the bridge during a load: the EJS_onGameStart
callback firing without or with an emulator canvas, and the emulator resizing
its canvas attributes. -/
inductive BEvent where
  | gameStartNoCanvas
  | gameStartWithCanvas
  | resize (w h : Nat)
  deriving DecidableEq

/-- Transition function of the bridge, following EJS_onGameStart: with no
canvas the bridge becomes ready (promise resolved) without binding; with a
canvas it binds immediately when the reported width exceeds the HTML default
300, and otherwise attaches an observer; a resize updates the reported
dimensions and, when the observer is attached and the new width exceeds 300,
disconnects the observer and runs markReady. -/
def bridgeStep : BEvent → BridgeState → BridgeState
  | .gameStartNoCanvas, b => { b with isReady := true, resolved := true }
  | .gameStartWithCanvas, b =>
      if 300 < b.realW then b.markReady else { b with observing := true }
  | .resize w h, b =>
      let b2 : BridgeState := { b with realW := w, realH := h }
      if b2.observing = true ∧ 300 < w then
        { b2.markReady with observing := false }
      else b2

/-- The outputCanvas getter: the bound EJS canvas when present, otherwise the
placeholder; by construction it always yields a surface. -/
def outputCanvas (b : BridgeState) : Surface :=
  if b.ejsBound then Surface.ejs else Surface.placeholder

/-- Reported width of a surface: the placeholder is fixed at 384, the EJS
canvas reports its current width attribute. -/
def surfaceWidth (b : BridgeState) : Surface → Nat
  | .placeholder => 384
  | .ejs => b.realW

/-- Reported height of a surface: the placeholder is fixed at 224, the EJS
canvas reports its current height attribute. -/
def surfaceHeight (b : BridgeState) : Surface → Nat
  | .placeholder => 224
  | .ejs => b.realH

/-! ### Scheduler clock

Model of the three.js Clock dependency exactly as SceneManager drives it
(default constructor, so autoStart is true). Vendor-documented behaviour:
Clock.start() sets startTime and oldTime to the current time, resets
elapsedTime to 0 and marks the clock running; getDelta() on a running clock
accumulates (now - oldTime) / 1000 into elapsedTime; on a stopped autoStart
clock it starts the clock and returns 0; getElapsedTime() calls getDelta()
and returns the accumulated elapsedTime. Times are rational milliseconds. -/

structure ClockState where
  startTime : ℚ
  oldTime : ℚ
  elapsedTime : ℚ
  running : Bool
  deriving DecidableEq

/-- Clock as constructed by SceneManager: not yet running, all times zero. -/
def ClockState.init : ClockState := ⟨0, 0, 0, false⟩

/-- Clock.start at wall time now: reset elapsed time and run. -/
def clockStart (now : ℚ) (_c : ClockState) : ClockState :=
  ⟨now, now, 0, true⟩

/-- Clock.getDelta at wall time now. -/
def clockGetDelta (now : ℚ) (c : ClockState) : ℚ × ClockState :=
  if c.running then
    let diff := (now - c.oldTime) / 1000
    (diff, { c with oldTime := now, elapsedTime := c.elapsedTime + diff })
  else
    (0, clockStart now c)

/-- Clock.getElapsedTime at wall time now: run getDelta, return elapsedTime. -/
def clockGetElapsedTime (now : ℚ) (c : ClockState) : ℚ × ClockState :=
  let p := clockGetDelta now c
  (p.2.elapsedTime, p.2)

/-! ### Frame scheduler: SceneManager (src/scene/SceneManager.js) -/

/-- Scheduler-side state: the pending requestAnimationFrame id, a fresh-id
counter for it, the clock, the uTime uniform last written to the CRT pass,
the embedded bridge state, whether init() has built the screen mesh, the
texture.image reference of the screen texture, its needsUpdate dirty bit, and
a counter of texture.image reassignments (rebind events). -/
structure SceneState where
  rafId : Option Nat
  nextRaf : Nat
  clock : ClockState
  uTime : ℚ
  bridge : BridgeState
  screenMesh : Bool
  textureImage : Surface
  needsUpdate : Bool
  rebindCount : Nat
  deriving DecidableEq

/-- Scene state after the constructor and init(): loop not started, clock
fresh, uTime uniform at its initial value 0, screen mesh built and its
texture bound to the bridge output at init time (the placeholder), external
canvas reporting w by h. -/
def SceneState.init (w h : Nat) : SceneState :=
  { rafId := none, nextRaf := 0, clock := ClockState.init, uTime := 0,
    bridge := BridgeState.init w h, screenMesh := true,
    textureImage := Surface.placeholder, needsUpdate := false,
    rebindCount := 0 }

/-- One execution of the private tick body at wall time now, in source order:
schedule the next frame (fresh rafId), then, only when the bridge is ready
and the screen mesh exists, swap texture.image to the bridge output if it
changed by reference (counting the rebind) and set needsUpdate, then advance
the uTime uniform from the clock. -/
def tickBody (now : ℚ) (s : SceneState) : SceneState :=
  let s1 : SceneState := { s with rafId := some s.nextRaf, nextRaf := s.nextRaf + 1 }
  let s2 : SceneState :=
    if s1.bridge.isReady = true ∧ s1.screenMesh = true then
      let out := outputCanvas s1.bridge
      let s3 : SceneState :=
        if s1.textureImage ≠ out then
          { s1 with textureImage := out, rebindCount := s1.rebindCount + 1 }
        else s1
      { s3 with needsUpdate := true }
    else s1
  let p := clockGetElapsedTime now s2.clock
  { s2 with clock := p.2, uTime := p.1 }

/-- SceneManager.start at wall time now: a no-op when a frame is already
scheduled; otherwise start the clock and run the first tick synchronously. -/
def sceneStart (now : ℚ) (s : SceneState) : SceneState :=
  if s.rafId.isSome then s
  else tickBody now { s with clock := clockStart now s.clock }

/-- SceneManager.stop: cancel the pending frame when there is one, otherwise
a no-op. -/
def sceneStop (s : SceneState) : SceneState :=
  if s.rafId.isSome then { s with rafId := none } else s

/-- Events acting on the scheduler: the public start and stop calls at a wall
time, the browser firing the scheduled animation frame, and bridge-side
events routed to the embedded bridge state. -/
inductive SEvent where
  | start (now : ℚ)
  | stop
  | raf (now : ℚ)
  | emu (e : BEvent)
  deriving DecidableEq

/-- Whether an event is a start call. -/
def SEvent.isStart : SEvent → Bool
  | .start _ => true
  | _ => false

/-- Scheduler transition: an animation frame only fires while one is
scheduled (rafId present); cancelAnimationFrame in stop guarantees no
further tick fires until start. -/
def sceneStep : SEvent → SceneState → Option SceneState
  | .start now, s => some (sceneStart now s)
  | .stop, s => some (sceneStop s)
  | .raf now, s => if s.rafId.isSome then some (tickBody now s) else none
  | .emu e, s => some { s with bridge := bridgeStep e s.bridge }

/-- Run a list of events from a state, failing when a raf fires unscheduled. -/
def runTrace (evs : List SEvent) (s : SceneState) : Option SceneState :=
  evs.foldlM (fun st e => sceneStep e st) s

/-- Iterate the tick body at the given wall times. -/
def ticksAt (ts : List ℚ) (s : SceneState) : SceneState :=
  ts.foldl (fun st t => tickBody t st) s

/-! ### Scenario states for the end-to-end rebind scenario (claim C7) -/

/-- Scheduler started at time 0 with the external canvas at the HTML default
300 by 150. -/
def c7Start : SceneState := sceneStart 0 (SceneState.init 300 150)

/-- EJS_onGameStart fires while the canvas still reports the default size:
the bridge attaches an observer and stays pending. -/
def c7Pending : SceneState :=
  { c7Start with bridge := bridgeStep BEvent.gameStartWithCanvas c7Start.bridge }

/-- A tick while still pending. -/
def c7Tick1 : SceneState := tickBody 16 c7Pending

/-- The emulator resizes its canvas to 384 by 224: the observer fires and the
bridge binds the live canvas. -/
def c7Resized : SceneState :=
  { c7Tick1 with bridge := bridgeStep (BEvent.resize 384 224) c7Tick1.bridge }

/-- The next tick after the resize. -/
def c7Tick2 : SceneState := tickBody 33 c7Resized

/-- A ready scene state used to instantiate tick lemmas. -/
def sceneReady : SceneState :=
  { SceneState.init 384 224 with bridge := (BridgeState.init 384 224).markReady }

/-- Event traces exercising a stop and restart of the scheduler. -/
def c5Trace1 : List SEvent := [SEvent.start 0, SEvent.raf 5000]

/-- The same run continued by a stop and a later restart. -/
def c5Trace2 : List SEvent :=
  [SEvent.start 0, SEvent.raf 5000, SEvent.stop, SEvent.start 10000]

/-- Scheduler started at wall time 0. -/
def c5s1 : SceneState := sceneStart 0 (SceneState.init 300 150)

/-- A tick at wall time 5000 milliseconds. -/
def c5s2 : SceneState := tickBody 5000 c5s1

/-- The scheduler stopped. -/
def c5s3 : SceneState := sceneStop c5s2

/-- The scheduler restarted at wall time 10000 milliseconds. -/
def c5s4 : SceneState := sceneStart 10000 c5s3

/-! ### CRT display filter (src/shaders/CRTShader.glsl) -/

/-- Two-component vector of reals, as GLSL vec2. -/
structure Vec2 where
  x : ℝ
  y : ℝ

/-- Four-component color of reals, as GLSL vec4 rgba. -/
structure Vec4 where
  r : ℝ
  g : ℝ
  b : ℝ
  a : ℝ

noncomputable section

/-- The literal circle constant written in the shader source. -/
def crtPi : ℝ := 3.14159265

/-- GLSL dot on vec2. -/
def dot2 (v w : Vec2) : ℝ := v.x * w.x + v.y * w.y

/-- GLSL mix on scalars. -/
def mixG (x y t : ℝ) : ℝ := x * (1 - t) + y * t

/-- The barrelDistort function of the shader. -/
def barrelDistort (uv : Vec2) (strength : ℝ) : Vec2 :=
  let cc : Vec2 := ⟨uv.x - 0.5, uv.y - 0.5⟩
  let dist : ℝ := dot2 cc cc
  ⟨uv.x + cc.x * dist * strength, uv.y + cc.y * dist * strength⟩

/-- The sampleChromatic function of the shader: red sampled at a positive
horizontal offset, green at the point itself, blue at the negative offset,
alpha forced to 1. The texture is an arbitrary function of coordinates. -/
def sampleChromatic (tex : Vec2 → Vec4) (uv : Vec2) (aberration : ℝ) : Vec4 :=
  ⟨(tex ⟨uv.x + aberration, uv.y⟩).r, (tex uv).g,
   (tex ⟨uv.x - aberration, uv.y⟩).b, 1⟩

/-- Componentwise scaling of the rgb channels, alpha untouched. -/
def scaleRGB (c : Vec4) (k : ℝ) : Vec4 := ⟨c.r * k, c.g * k, c.b * k, c.a⟩

/-- Componentwise addition on the rgb channels, alpha from the first. -/
def addRGB (c d : Vec4) : Vec4 := ⟨c.r + d.r, c.g + d.g, c.b + d.b, c.a⟩

/-- The luma dot product of the shader. -/
def lumaOf (c : Vec4) : ℝ := 0.299 * c.r + 0.587 * c.g + 0.114 * c.b

/-- The scanline sinusoid before square-root softening: the sine of
uv.y times the vertical resolution times the shader circle constant, mapped
affinely into the unit interval. -/
def crtScanlineRaw (H y : ℝ) : ℝ := Real.sin (y * H * crtPi) * 0.5 + 0.5

/-- The softened scanline factor of the shader. -/
def crtScanline (H y : ℝ) : ℝ := Real.sqrt (crtScanlineRaw H y)

/-- The temporal flicker multiplier of the shader. -/
def flickerAt (t : ℝ) : ℝ := 1.0 + Real.sin (t * 60.0) * 0.003

/-- The vignette geometric term uv * (1 - uv.yx). -/
def vigComponents (uv : Vec2) : Vec2 := ⟨uv.x * (1 - uv.y), uv.y * (1 - uv.x)⟩

/-- The vignette base value before exponentiation. -/
def vigTerm (uv : Vec2) : ℝ := (vigComponents uv).x * (vigComponents uv).y * 15

/-- The vignette multiplier: base value raised to the real strength exponent,
as the GLSL pow intrinsic. -/
def vignetteAt (strength : ℝ) (uv : Vec2) : ℝ := vigTerm uv ^ strength

/-- The uniform block of the CRT shader pass. -/
structure CRTUniforms where
  uResolution : Vec2
  uTime : ℝ
  uScanlineIntensity : ℝ
  uBarrelStrength : ℝ
  uChromaticAberration : ℝ
  uVignetteStrength : ℝ
  uBrightness : ℝ

/-- The in-bounds tail of the fragment shader main, in source order:
chromatic sampling, scanline attenuation through mix, luma glow boost,
brightness scale, flicker scale, vignette scale. -/
def crtInBoundsColor (u : CRTUniforms) (tex : Vec2 → Vec4) (uv : Vec2) : Vec4 :=
  let color0 := sampleChromatic tex uv u.uChromaticAberration
  let color1 := scaleRGB color0
    (mixG 1 (crtScanline u.uResolution.y uv.y) u.uScanlineIntensity)
  let color2 := addRGB color1 (scaleRGB color1 (lumaOf color1 * 0.15))
  let color3 := scaleRGB color2 u.uBrightness
  let color4 := scaleRGB color3 (flickerAt u.uTime)
  scaleRGB color4 (vignetteAt u.uVignetteStrength uv)

/-- The fragment shader main: barrel-distort the coordinate, clip to opaque
black outside the unit square, otherwise run the in-bounds pipeline. -/
def crtMain (u : CRTUniforms) (tex : Vec2 → Vec4) (vUv : Vec2) : Vec4 :=
  let uv := barrelDistort vUv (u.uBarrelStrength * 0.3)
  if uv.x < 0 ∨ uv.x > 1 ∨ uv.y < 0 ∨ uv.y > 1 then
    ⟨0, 0, 0, 1⟩
  else
    crtInBoundsColor u tex uv

/-- A constant opaque black texture used to instantiate shader lemmas. -/
def texBlack : Vec2 → Vec4 := fun _ => ⟨0, 0, 0, 1⟩

/-- The default uniform values of CRTShader.js with barrel strength set to
zero, used to instantiate shader lemmas. -/
def uFlat : CRTUniforms :=
  { uResolution := ⟨800, 600⟩, uTime := 0, uScanlineIntensity := 0.15,
    uBarrelStrength := 0, uChromaticAberration := 0.003,
    uVignetteStrength := 0.4, uBrightness := 1.1 }

end

/-! ### Helper lemmas about the tick body -/

/-- The tick body never touches the embedded bridge state. -/
theorem tickBody_bridge (now : ℚ) (s : SceneState) :
    (tickBody now s).bridge = s.bridge := by
  by_cases h1 : s.bridge.isReady = true ∧ s.screenMesh = true
  · by_cases h3 : s.textureImage ≠ outputCanvas s.bridge <;>
      simp [tickBody, clockGetElapsedTime, h1, h3]
  · simp [tickBody, clockGetElapsedTime, h1]

/-- The tick body always schedules a fresh animation frame. -/
theorem tickBody_rafId (now : ℚ) (s : SceneState) :
    (tickBody now s).rafId = some s.nextRaf := by
  by_cases h1 : s.bridge.isReady = true ∧ s.screenMesh = true
  · by_cases h3 : s.textureImage ≠ outputCanvas s.bridge <;>
      simp [tickBody, clockGetElapsedTime, h1, h3]
  · simp [tickBody, clockGetElapsedTime, h1]

/-- The clock and uTime updates of the tick body only depend on the incoming
clock: they are one getDelta step. -/
theorem tickBody_clockSpec (now : ℚ) (s : SceneState) :
    (tickBody now s).clock = (clockGetDelta now s.clock).2 ∧
    (tickBody now s).uTime = (clockGetDelta now s.clock).2.elapsedTime := by
  by_cases h1 : s.bridge.isReady = true ∧ s.screenMesh = true
  · by_cases h3 : s.textureImage ≠ outputCanvas s.bridge <;>
      simp [tickBody, clockGetElapsedTime, h1, h3]
  · simp [tickBody, clockGetElapsedTime, h1]

/-- When the texture already references the bridge output, a tick performs no
rebind: texture.image and the rebind counter are unchanged. -/
theorem tickBody_keepImage (now : ℚ) (s : SceneState)
    (h : s.textureImage = outputCanvas s.bridge) :
    (tickBody now s).textureImage = s.textureImage ∧
    (tickBody now s).rebindCount = s.rebindCount := by
  by_cases h1 : s.bridge.isReady = true ∧ s.screenMesh = true
  · simp [tickBody, clockGetElapsedTime, h1, h]
  · simp [tickBody, clockGetElapsedTime, h1]

/-- Iterated ticks after the texture already references the bridge output
never rebind: image, rebind counter and bridge state are all preserved. -/
theorem ticksAt_stable (ts : List ℚ) (s : SceneState)
    (h : s.textureImage = outputCanvas s.bridge) :
    (ticksAt ts s).textureImage = s.textureImage ∧
    (ticksAt ts s).rebindCount = s.rebindCount := by
  induction ts generalizing s with
  | nil => exact ⟨rfl, rfl⟩
  | cons t ts ih =>
    have hb := tickBody_bridge t s
    have hk := tickBody_keepImage t s h
    have h2 : (tickBody t s).textureImage = outputCanvas (tickBody t s).bridge := by
      rw [hk.1, hb, h]
    have h3 := ih (tickBody t s) h2
    refine ⟨?_, ?_⟩
    · calc (ticksAt (t :: ts) s).textureImage
          = (ticksAt ts (tickBody t s)).textureImage := rfl
        _ = (tickBody t s).textureImage := h3.1
        _ = s.textureImage := hk.1
    · calc (ticksAt (t :: ts) s).rebindCount
          = (ticksAt ts (tickBody t s)).rebindCount := rfl
        _ = (tickBody t s).rebindCount := h3.2
        _ = s.rebindCount := hk.2

/-! ### Claim theorems for the adapter and scheduler -/

/-- Claim C1, counterexample. The claim states that every scheduler tick sets
the streamed texture needsUpdate flag to true unconditionally, including
ticks on which the emulator is not yet ready. On the initial state, where the
emulator is not ready, a tick leaves needsUpdate false: the marking is
guarded by the ready check. -/
theorem tick_c1_counterexample :
    (tickBody 0 (SceneState.init 300 150)).needsUpdate = false := by decide

/-- Claim C1, amended. On every tick on which the emulator bridge reports
ready and the screen mesh exists, the streamed texture is marked dirty
unconditionally with respect to the video content: no producer-side dirty
bit is consulted, needsUpdate is set to true in every such tick. -/
theorem tick_c1_amended : ∀ (now : ℚ) (s : SceneState),
    s.bridge.isReady = true → s.screenMesh = true →
    (tickBody now s).needsUpdate = true := by
  intro now s h1 h2
  by_cases h3 : s.textureImage ≠ outputCanvas s.bridge <;>
    simp [tickBody, clockGetElapsedTime, h1, h2, h3]

/-- Claim C1, witness: the amended theorem applied to a concrete ready
state. -/
theorem tick_c1_witness : (tickBody 0 sceneReady).needsUpdate = true :=
  tick_c1_amended 0 sceneReady (by decide) (by decide)

/-- Claim C2. The adapter output is never null: from construction it is the
synthetic 384 by 224 placeholder; while no EJS canvas is bound every read
serves the placeholder; the bound flag can only become true through a step in
which the real canvas's reported width exceeds the default-placeholder
threshold 300; and once bound, every read serves the real surface and every
further step keeps it bound. -/
theorem bridge_c2 :
    (∀ w h : Nat, outputCanvas (BridgeState.init w h) = Surface.placeholder) ∧
    (∀ w h : Nat, surfaceWidth (BridgeState.init w h) Surface.placeholder = 384 ∧
      surfaceHeight (BridgeState.init w h) Surface.placeholder = 224) ∧
    (∀ b : BridgeState, b.ejsBound = false → outputCanvas b = Surface.placeholder) ∧
    (∀ (b : BridgeState) (e : BEvent), b.ejsBound = false →
      (bridgeStep e b).ejsBound = true → 300 < (bridgeStep e b).realW) ∧
    (∀ (b : BridgeState) (e : BEvent), b.ejsBound = true →
      outputCanvas b = Surface.ejs ∧ (bridgeStep e b).ejsBound = true) := by
  refine ⟨?_, ?_, ?_, ?_, ?_⟩
  · intro w h; simp [outputCanvas, BridgeState.init]
  · intro w h; exact ⟨rfl, rfl⟩
  · intro b hb; simp [outputCanvas, hb]
  · intro b e hb
    cases e with
    | gameStartNoCanvas => intro h2; simp [bridgeStep, hb] at h2
    | gameStartWithCanvas =>
        by_cases hw : 300 < b.realW
        · intro _; simp [bridgeStep, hw, BridgeState.markReady]
        · intro h2; simp [bridgeStep, hw, hb] at h2
    | resize w h =>
        by_cases hw : b.observing = true ∧ 300 < w
        · intro _; simp [bridgeStep, hw, BridgeState.markReady]
        · intro h2; simp [bridgeStep, hw, hb] at h2
  · intro b e hb
    refine ⟨by simp [outputCanvas, hb], ?_⟩
    cases e with
    | gameStartNoCanvas => simp [bridgeStep, hb]
    | gameStartWithCanvas =>
        by_cases hw : 300 < b.realW <;>
          simp [bridgeStep, hw, BridgeState.markReady, hb]
    | resize w h =>
        by_cases hw : b.observing = true ∧ 300 < w <;>
          simp [bridgeStep, hw, BridgeState.markReady, hb]

/-- Claim C2, witness: the theorem applied to a freshly constructed bridge
and to the pending-then-resized transition. -/
theorem bridge_c2_witness :
    outputCanvas (BridgeState.init 300 150) = Surface.placeholder ∧
    300 < (bridgeStep (BEvent.resize 384 224)
      (bridgeStep BEvent.gameStartWithCanvas (BridgeState.init 300 150))).realW := by
  constructor
  · exact bridge_c2.2.2.1 (BridgeState.init 300 150) (by decide)
  · exact bridge_c2.2.2.2.1
      (bridgeStep BEvent.gameStartWithCanvas (BridgeState.init 300 150))
      (BEvent.resize 384 224) (by decide) (by decide)

/-- Claim C10. When EJS_onGameStart fires with no emulator canvas present:
the bridge still becomes ready, the loadROM promise resolves, no real canvas
is bound, and outputCanvas keeps returning the 384 by 224 placeholder — so a
true ready flag does not guarantee a real video source. -/
theorem bridge_c10 : ∀ w h : Nat,
    (bridgeStep BEvent.gameStartNoCanvas (BridgeState.init w h)).isReady = true ∧
    (bridgeStep BEvent.gameStartNoCanvas (BridgeState.init w h)).resolved = true ∧
    (bridgeStep BEvent.gameStartNoCanvas (BridgeState.init w h)).ejsBound = false ∧
    outputCanvas (bridgeStep BEvent.gameStartNoCanvas (BridgeState.init w h)) =
      Surface.placeholder ∧
    surfaceWidth (bridgeStep BEvent.gameStartNoCanvas (BridgeState.init w h))
      Surface.placeholder = 384 ∧
    surfaceHeight (bridgeStep BEvent.gameStartNoCanvas (BridgeState.init w h))
      Surface.placeholder = 224 := by
  intro w h
  exact ⟨rfl, rfl, rfl, rfl, rfl, rfl⟩

/-- Claim C5, counterexample. The elapsed-time uniform is not monotone across
a stop and restart: after starting at time 0 and ticking at 5000 the uniform
reads 5, but stopping and restarting at 10000 makes the next tick read 0,
strictly less than the earlier tick's value — SceneManager.start restarts the
clock, resetting its elapsed time. -/
theorem scene_c5_counterexample :
    runTrace c5Trace1 (SceneState.init 300 150) = some c5s2 ∧
    runTrace c5Trace2 (SceneState.init 300 150) = some c5s4 ∧
    c5s2.uTime = 5 ∧ c5s4.uTime = 0 ∧ c5s4.uTime < c5s2.uTime := by
  have h1 : c5s1.rafId = some 0 := by
    have hx : c5s1 = tickBody 0
        { SceneState.init 300 150 with
            clock := clockStart 0 (SceneState.init 300 150).clock } := by
      simp [c5s1, sceneStart, SceneState.init]
    rw [hx, tickBody_rafId]
    rfl
  have e1 : sceneStep (SEvent.start 0) (SceneState.init 300 150) = some c5s1 := rfl
  have e2 : sceneStep (SEvent.raf 5000) c5s1 = some c5s2 := by
    show (if c5s1.rafId.isSome then some (tickBody 5000 c5s1) else none) = some c5s2
    rw [h1]
    rfl
  have e3 : sceneStep SEvent.stop c5s2 = some c5s3 := rfl
  have e4 : sceneStep (SEvent.start 10000) c5s3 = some c5s4 := rfl
  have hu2 : c5s2.uTime = 5 := by
    norm_num [c5s2, c5s1, sceneStart, tickBody, clockGetElapsedTime, clockGetDelta,
      clockStart, SceneState.init, BridgeState.init, ClockState.init, outputCanvas]
  have hu4 : c5s4.uTime = 0 := by
    norm_num [c5s4, c5s3, c5s2, c5s1, sceneStop, sceneStart, tickBody,
      clockGetElapsedTime, clockGetDelta, clockStart, SceneState.init,
      BridgeState.init, ClockState.init, outputCanvas]
  refine ⟨?_, ?_, hu2, hu4, ?_⟩
  · simp [runTrace, c5Trace1, e1, e2]
  · simp [runTrace, c5Trace2, e1, e2, e3, e4]
  · rw [hu2, hu4]; norm_num

/-- Claim C5, amended. Within a single running period the elapsed-time
uniform is monotone: for two consecutive ticks at nondecreasing wall times
the later tick's uniform is at least the earlier one's. A start after a stop
resumes ticking with the bridge binding intact and reschedules a frame, but
restarts the clock: the first tick of the new run reports elapsed time 0, so
monotonicity does not extend across a stop and restart boundary. -/
theorem scene_c5_amended :
    (∀ (t1 t2 : ℚ) (s : SceneState), s.clock.running = true →
      s.clock.oldTime ≤ t1 → t1 ≤ t2 →
      (tickBody t1 s).uTime ≤ (tickBody t2 (tickBody t1 s)).uTime) ∧
    (∀ (t : ℚ) (s : SceneState), s.rafId = none →
      (sceneStart t s).bridge = s.bridge ∧
      (sceneStart t s).uTime = 0 ∧
      (sceneStart t s).rafId = some s.nextRaf) := by
  constructor
  · intro t1 t2 s hrun hold hle
    obtain ⟨hc1, hu1⟩ := tickBody_clockSpec t1 s
    obtain ⟨hc2, hu2⟩ := tickBody_clockSpec t2 (tickBody t1 s)
    rw [hu1, hu2, hc1]
    have hstep : ∀ (t3 : ℚ) (c : ClockState), c.running = true →
        (clockGetDelta t3 c).2.elapsedTime = c.elapsedTime + (t3 - c.oldTime) / 1000 ∧
        (clockGetDelta t3 c).2.oldTime = t3 ∧
        (clockGetDelta t3 c).2.running = true := by
      intro t3 c hc
      simp [clockGetDelta, hc]
    obtain ⟨ha1, ha2, ha3⟩ := hstep t1 s.clock hrun
    obtain ⟨hb1, hb2, hb3⟩ := hstep t2 (clockGetDelta t1 s.clock).2 ha3
    rw [hb1, ha2, ha1]
    have hd1 : (0 : ℚ) ≤ (t2 - t1) / 1000 :=
      div_nonneg (by linarith) (by norm_num)
    linarith
  · intro t s hraf
    have hs : s.rafId.isSome = false := by simp [hraf]
    have hbody : sceneStart t s = tickBody t { s with clock := clockStart t s.clock } := by
      simp [sceneStart, hs]
    obtain ⟨hc, hu⟩ :=
      tickBody_clockSpec t { s with clock := clockStart t s.clock }
    refine ⟨?_, ?_, ?_⟩
    · rw [hbody, tickBody_bridge]
    · rw [hbody, hu]
      simp [clockGetDelta, clockStart]
    · rw [hbody, tickBody_rafId]

/-- Claim C5, witness: the amended theorem at a started scheduler ticking at
1000 then 2000, and at a restart after a stop. -/
theorem scene_c5_witness :
    (tickBody 1000 (sceneStart 0 (SceneState.init 300 150))).uTime ≤
      (tickBody 2000 (tickBody 1000 (sceneStart 0 (SceneState.init 300 150)))).uTime ∧
    (sceneStart 3000 (sceneStop (sceneStart 0 (SceneState.init 300 150)))).uTime = 0 := by
  constructor
  · exact scene_c5_amended.1 1000 2000 (sceneStart 0 (SceneState.init 300 150))
      (by decide) (by decide) (by norm_num)
  · exact (scene_c5_amended.2 3000 (sceneStop (sceneStart 0 (SceneState.init 300 150)))
      (by decide)).2.1

/-- Claim C6. start on an already-running scheduler is a no-op; stop on a
stopped scheduler is a no-op; stop always leaves no frame scheduled; an
animation frame cannot fire while no frame is scheduled; and every non-start
event preserves the stopped state — so after stop returns, no further tick
fires until start is called again. -/
theorem scene_c6 :
    (∀ (t : ℚ) (s : SceneState), s.rafId.isSome = true → sceneStart t s = s) ∧
    (∀ s : SceneState, s.rafId = none → sceneStop s = s) ∧
    (∀ s : SceneState, (sceneStop s).rafId = none) ∧
    (∀ (t : ℚ) (s : SceneState), s.rafId = none →
      sceneStep (SEvent.raf t) s = none) ∧
    (∀ (e : SEvent) (s s2 : SceneState), s.rafId = none → SEvent.isStart e = false →
      sceneStep e s = some s2 → s2.rafId = none) := by
  refine ⟨?_, ?_, ?_, ?_, ?_⟩
  · intro t s h; simp [sceneStart, h]
  · intro s h; simp [sceneStop, h]
  · intro s
    by_cases h : s.rafId.isSome = true
    · simp [sceneStop, h]
    · have hn : s.rafId = none := by
        cases hr : s.rafId with
        | none => rfl
        | some v => rw [hr] at h; simp at h
      simp [sceneStop, hn]
  · intro t s h; simp [sceneStep, h]
  · intro e s s2 h1 h2 h3
    cases e with
    | start t => simp [SEvent.isStart] at h2
    | stop =>
        have hs : sceneStop s = s := by simp [sceneStop, h1]
        simp [sceneStep, hs] at h3
        rw [← h3]; exact h1
    | raf t => simp [sceneStep, h1] at h3
    | emu ev =>
        simp [sceneStep] at h3
        rw [← h3]
        exact h1

/-- Claim C6, witness: the theorem at a started scheduler and at the stopped
initial state. -/
theorem scene_c6_witness :
    sceneStart 5 (sceneStart 0 (SceneState.init 300 150)) =
      sceneStart 0 (SceneState.init 300 150) ∧
    sceneStop (SceneState.init 300 150) = SceneState.init 300 150 ∧
    sceneStep (SEvent.raf 7) (SceneState.init 300 150) = none := by
  refine ⟨?_, ?_, ?_⟩
  · exact scene_c6.1 5 (sceneStart 0 (SceneState.init 300 150)) (by decide)
  · exact scene_c6.2.1 (SceneState.init 300 150) (by decide)
  · exact scene_c6.2.2.2.1 7 (SceneState.init 300 150) (by decide)

/-- Claim C7. With the real canvas bound at the default 300 by 150 the tick
keeps serving the placeholder with no rebind; after the resize to 384 by 224
the very next tick swaps texture.image to the live canvas by reference,
recording exactly one rebind; and any number of further ticks record no
additional rebind — exactly one rebind for the source change, never zero,
never more than one. -/
theorem scene_c7 :
    c7Tick1.textureImage = Surface.placeholder ∧ c7Tick1.rebindCount = 0 ∧
    c7Tick2.textureImage = Surface.ejs ∧ c7Tick2.rebindCount = 1 ∧
    ∀ ts : List ℚ, (ticksAt ts c7Tick2).textureImage = Surface.ejs ∧
      (ticksAt ts c7Tick2).rebindCount = 1 := by
  refine ⟨by decide, by decide, by decide, by decide, ?_⟩
  intro ts
  have h : c7Tick2.textureImage = outputCanvas c7Tick2.bridge := by decide
  have h2 := ticksAt_stable ts c7Tick2 h
  rw [h2.1, h2.2]
  exact ⟨by decide, by decide⟩

/-! ### Claim theorems for the CRT shader -/

/-- Claim C4. The barrel distortion is exactly
uv + (uv - 0.5) * dot(uv - 0.5, uv - 0.5) * k; with barrel strength 0 (so
k = 0 * 0.3) it is the identity; and any pixel whose distorted coordinate
leaves the unit square is written as opaque black with the whole remaining
pipeline skipped — the output is black for every texture and every uniform
value. -/
theorem crt_c4 :
    (∀ uv : Vec2, barrelDistort uv ((0 : ℝ) * 0.3) = uv) ∧
    (∀ (uv : Vec2) (k : ℝ), barrelDistort uv k =
      ⟨uv.x + (uv.x - 0.5) *
        dot2 ⟨uv.x - 0.5, uv.y - 0.5⟩ ⟨uv.x - 0.5, uv.y - 0.5⟩ * k,
       uv.y + (uv.y - 0.5) *
        dot2 ⟨uv.x - 0.5, uv.y - 0.5⟩ ⟨uv.x - 0.5, uv.y - 0.5⟩ * k⟩) ∧
    (∀ (u : CRTUniforms) (tex : Vec2 → Vec4) (vUv : Vec2),
      ((barrelDistort vUv (u.uBarrelStrength * 0.3)).x < 0 ∨
       (barrelDistort vUv (u.uBarrelStrength * 0.3)).x > 1 ∨
       (barrelDistort vUv (u.uBarrelStrength * 0.3)).y < 0 ∨
       (barrelDistort vUv (u.uBarrelStrength * 0.3)).y > 1) →
      crtMain u tex vUv = ⟨0, 0, 0, 1⟩) := by
  refine ⟨?_, ?_, ?_⟩
  · intro uv
    obtain ⟨x, y⟩ := uv
    simp [barrelDistort, dot2]
  · intro uv k; rfl
  · intro u tex vUv h
    simp only [crtMain]
    rw [if_pos h]

/-- Claim C4, witness: with zero barrel strength the coordinate (2, 1/2)
stays at (2, 1/2), outside the unit square, and the shader emits opaque
black. -/
theorem crt_c4_witness : crtMain uFlat texBlack ⟨2, 1 / 2⟩ = ⟨0, 0, 0, 1⟩ := by
  apply crt_c4.2.2 uFlat texBlack ⟨2, 1 / 2⟩
  right; left
  show (barrelDistort ⟨2, 1 / 2⟩ (uFlat.uBarrelStrength * 0.3)).x > 1
  norm_num [barrelDistort, dot2, uFlat]

/-- Claim C3, counterexample. The claim asserts a sinusoid of spatial
frequency equal to the vertical resolution H, that is, H full periods over
uv.y in the unit interval, so period 1/H. With H = 2 that demands equal
scanline factors at uv.y = 1/4 and uv.y = 1/4 + 1/2; the shader value
sin(uv.y * H * 3.14159265) differs in sign between the two points, so the
factors differ — the actual per-unit phase advance is H * 3.14159265, about
half the claimed 2 * pi * H. -/
theorem crt_c3_counterexample :
    crtScanline 2 (1 / 4 + 1 / 2) ≠ crtScanline 2 (1 / 4) := by
  have hpi3 : (3 : ℝ) < Real.pi := Real.pi_gt_three
  have hpi315 : Real.pi < 3.15 := Real.pi_lt_d2
  have h1 : 0 < Real.sin (1 / 4 * 2 * crtPi) := by
    apply Real.sin_pos_of_pos_of_lt_pi
    · unfold crtPi; norm_num
    · unfold crtPi; nlinarith
  have harg : (1 / 4 + 1 / 2 : ℝ) * 2 * crtPi =
      (3 / 2 * crtPi - Real.pi) + Real.pi := by ring
  have h2 : Real.sin ((1 / 4 + 1 / 2 : ℝ) * 2 * crtPi) < 0 := by
    rw [harg, Real.sin_add_pi]
    have h3 : 0 < Real.sin (3 / 2 * crtPi - Real.pi) := by
      apply Real.sin_pos_of_pos_of_lt_pi
      · unfold crtPi; nlinarith
      · unfold crtPi; nlinarith
    linarith
  have hb0 : 0 ≤ crtScanlineRaw 2 (1 / 4 + 1 / 2) := by
    have hs := Real.neg_one_le_sin ((1 / 4 + 1 / 2 : ℝ) * 2 * crtPi)
    unfold crtScanlineRaw
    linarith
  have hba : crtScanlineRaw 2 (1 / 4 + 1 / 2) < crtScanlineRaw 2 (1 / 4) := by
    unfold crtScanlineRaw
    linarith
  have hlt := Real.sqrt_lt_sqrt hb0 hba
  unfold crtScanline
  exact ne_of_lt hlt

/-- Claim C3, amended. The scanline factor is a vertical sinusoid with phase
uv.y * H * 3.14159265 — a per-unit phase advance of H * 3.14159265, which is
approximately pi * H, about H/2 full periods over the unit interval rather
than the claimed H — rectified affinely into the unit interval,
square-root-softened, and applied to the color as
mix(1, scanline, scanlineIntensity). -/
theorem crt_c3_amended :
    (∀ H y : ℝ, 0 ≤ crtScanlineRaw H y ∧ crtScanlineRaw H y ≤ 1) ∧
    (∀ H y : ℝ, crtScanline H y =
      Real.sqrt (Real.sin (y * H * crtPi) * 0.5 + 0.5)) ∧
    (0 < crtPi ∧ crtPi < 2 * Real.pi ∧ |crtPi - Real.pi| < 1 / 1000000) ∧
    (∀ (u : CRTUniforms) (tex : Vec2 → Vec4) (uv : Vec2),
      ∃ c : Vec4,
        c = scaleRGB (sampleChromatic tex uv u.uChromaticAberration)
          (mixG 1 (crtScanline u.uResolution.y uv.y) u.uScanlineIntensity) ∧
        crtInBoundsColor u tex uv =
          scaleRGB (scaleRGB (scaleRGB (addRGB c (scaleRGB c (lumaOf c * 0.15)))
            u.uBrightness) (flickerAt u.uTime))
            (vignetteAt u.uVignetteStrength uv)) := by
  refine ⟨?_, ?_, ⟨?_, ?_, ?_⟩, ?_⟩
  · intro H y
    have hs1 := Real.neg_one_le_sin (y * H * crtPi)
    have hs2 := Real.sin_le_one (y * H * crtPi)
    unfold crtScanlineRaw
    constructor <;> linarith
  · intro H y; rfl
  · unfold crtPi; norm_num
  · have hpi3 : (3 : ℝ) < Real.pi := Real.pi_gt_three
    unfold crtPi; nlinarith
  · have h1 : (3.141592 : ℝ) < Real.pi := Real.pi_gt_d6
    have h2 : Real.pi < 3.141593 := Real.pi_lt_d6
    unfold crtPi
    rw [abs_lt]
    constructor <;> linarith
  · intro u tex uv
    exact ⟨_, rfl, rfl⟩

/-- Claim C8. The flicker multiplier equals 1 + 0.003 * sin(60 * t), always
lies in the closed interval from 0.997 to 1.003, and multiplicatively it can
neither darken a nonnegative pre-flicker value below 99.7 percent nor
brighten it above 100.3 percent. -/
theorem crt_c8 : ∀ t : ℝ,
    flickerAt t = 1 + 0.003 * Real.sin (60 * t) ∧
    0.997 ≤ flickerAt t ∧ flickerAt t ≤ 1.003 ∧
    ∀ c : ℝ, 0 ≤ c →
      0.997 * c ≤ c * flickerAt t ∧ c * flickerAt t ≤ 1.003 * c := by
  intro t
  have hs1 := Real.neg_one_le_sin (t * 60.0)
  have hs2 := Real.sin_le_one (t * 60.0)
  refine ⟨?_, ?_, ?_, ?_⟩
  · unfold flickerAt
    rw [show (60.0 : ℝ) = 60 by norm_num, mul_comm t 60]
    ring
  · unfold flickerAt; linarith
  · unfold flickerAt; linarith
  · intro c hc
    constructor
    · unfold flickerAt
      nlinarith [mul_nonneg hc (by linarith : (0 : ℝ) ≤ 1 + Real.sin (t * 60.0))]
    · unfold flickerAt
      nlinarith [mul_nonneg hc (by linarith : (0 : ℝ) ≤ 1 - Real.sin (t * 60.0))]

/-- Claim C8, witness: the theorem at time 0 and pre-flicker value 2. -/
theorem crt_c8_witness :
    0.997 * (2 : ℝ) ≤ 2 * flickerAt 0 ∧ 2 * flickerAt 0 ≤ 1.003 * 2 :=
  (crt_c8 0).2.2.2 2 (by norm_num)

/-- Claim C9. With vignette strength 0 the vignette multiplier is 1 at every
coordinate strictly inside the unit square, where the geometric base term is
strictly positive; and within the closed unit square the geometric term
uv * (1 - uv.yx) has a zero component exactly on the image border. -/
theorem crt_c9 : ∀ uv : Vec2,
    (0 < uv.x → uv.x < 1 → 0 < uv.y → uv.y < 1 →
      0 < vigTerm uv ∧ vignetteAt 0 uv = 1) ∧
    (0 ≤ uv.x → uv.x ≤ 1 → 0 ≤ uv.y → uv.y ≤ 1 →
      (((vigComponents uv).x = 0 ∨ (vigComponents uv).y = 0) ↔
        (uv.x = 0 ∨ uv.x = 1 ∨ uv.y = 0 ∨ uv.y = 1))) := by
  intro uv
  constructor
  · intro hx0 hx1 hy0 hy1
    constructor
    · have h1 : 0 < uv.x * (1 - uv.y) := mul_pos hx0 (by linarith)
      have h2 : 0 < uv.y * (1 - uv.x) := mul_pos hy0 (by linarith)
      have h3 : 0 < uv.x * (1 - uv.y) * (uv.y * (1 - uv.x)) * 15 :=
        mul_pos (mul_pos h1 h2) (by norm_num)
      simpa [vigTerm, vigComponents] using h3
    · unfold vignetteAt
      exact Real.rpow_zero _
  · intro hx0 hx1 hy0 hy1
    constructor
    · intro h
      rcases h with h | h
      · rcases (by simpa [vigComponents] using h : uv.x = 0 ∨ 1 - uv.y = 0) with h2 | h2
        · exact Or.inl h2
        · exact Or.inr (Or.inr (Or.inr (by linarith)))
      · rcases (by simpa [vigComponents] using h : uv.y = 0 ∨ 1 - uv.x = 0) with h2 | h2
        · exact Or.inr (Or.inr (Or.inl h2))
        · exact Or.inr (Or.inl (by linarith))
    · intro h
      rcases h with h | h | h | h
      · exact Or.inl (by simp [vigComponents, h])
      · exact Or.inr (by simp [vigComponents, h])
      · exact Or.inr (by simp [vigComponents, h])
      · exact Or.inl (by simp [vigComponents, h])

/-- Claim C9, witness: the theorem at the interior point (1/2, 1/2). -/
theorem crt_c9_witness :
    0 < vigTerm ⟨1 / 2, 1 / 2⟩ ∧ vignetteAt 0 ⟨1 / 2, 1 / 2⟩ = 1 :=
  (crt_c9 ⟨1 / 2, 1 / 2⟩).1 (by norm_num) (by norm_num) (by norm_num) (by norm_num)

end Arcade
